import Mathlib

/-!
# Verification of the localcobalt media pipeline against its specification

Shallow embedding of the two near-duplicate source variants
(`src/unified_cobalt.py` and `src/unnamed/part_000`) of the
localcobalt-nighty repository, together with theorems settling the frozen
claims about the argument parser, the fetcher, the GIF transcoder, and the
fallback uploader.

Python strings are modelled as lists of characters (the inputs of interest
are ASCII); Python floats are modelled as exact rationals `ℚ`; fallible code
returns `Except`; external effects (HTTP responses, external process
outcomes, file sizes) are supplied by explicit environment records, and the
commands issued to external processes are recorded in a trace.  Recursions
that Python runs as index-advancing loops are written with a fuel argument
equal to the input length: each step consumes at least one element, so the
fuel never runs out and the fuel-exhausted branches are unreachable.
-/

set_option linter.unusedVariables false
set_option linter.unnecessarySeqFocus false

deriving instance DecidableEq for Except

namespace LocalCobalt

/-- Python regex `\w` over ASCII: letters, digits and underscore. -/
def isWordChar (c : Char) : Bool := c.isAlphanum || c = '_'

/-- Python regex `\S`: any non-whitespace character. -/
def isNonSpace (c : Char) : Bool := !c.isWhitespace

/-- Scanning pass of `re.sub(r'-(\w+)=(V+)', r'-\1 \2', s)` over a character
list, where `V` is the character class of the value group (`\w` in
`unified_cobalt.py`, `\S` in `part_000`).  At each position the engine tries
to match `-`, a maximal nonempty `\w` run, `=`, and a maximal nonempty `V`
run; on success it emits the two groups separated by a space and resumes
after the match, otherwise it copies one character and advances. -/
def reSubFlagEqAux (vclass : Char → Bool) : Nat → List Char → List Char
  | 0, cs => cs
  | _ + 1, [] => []
  | fuel + 1, c :: rest =>
    let w := rest.takeWhile isWordChar
    let rest1 := rest.dropWhile isWordChar
    let v := rest1.tail.takeWhile vclass
    if c = '-' ∧ w ≠ [] ∧ rest1.head? = some '=' ∧ v ≠ [] then
      (c :: w) ++ (' ' :: v) ++ reSubFlagEqAux vclass fuel (rest1.tail.dropWhile vclass)
    else c :: reSubFlagEqAux vclass fuel rest

/-- `re.sub(r'-(\w+)=(V+)', r'-\1 \2', s)`. -/
def reSubFlagEq (vclass : Char → Bool) (cs : List Char) : List Char :=
  reSubFlagEqAux vclass cs.length cs

/-- Python `str.split()`: split on runs of whitespace, discarding empties. -/
def pyWordsAux : Nat → List Char → List (List Char)
  | 0, _ => []
  | fuel + 1, cs =>
    let cs1 := cs.dropWhile Char.isWhitespace
    match cs1 with
    | [] => []
    | _ :: _ => cs1.takeWhile isNonSpace :: pyWordsAux fuel (cs1.dropWhile isNonSpace)

/-- Python `str.split()`. -/
def pyWords (cs : List Char) : List (List Char) := pyWordsAux cs.length cs

/-- Python `str.strip()`: remove whitespace from both ends. -/
def pyStrip (cs : List Char) : List Char :=
  ((cs.dropWhile Char.isWhitespace).reverse.dropWhile Char.isWhitespace).reverse

/-- Python `' '.join(parts)`. -/
def pyJoinSpace : List (List Char) → List Char
  | [] => []
  | [w] => w
  | w :: rest => w ++ ' ' :: pyJoinSpace rest

/-- Python `w.startswith('-')`. -/
def startsWithDash : List Char → Bool
  | '-' :: _ => true
  | _ => false

/-- `re.match(r'-(\d+)p$', w)`: `w` is a dash, a nonempty digit run, and a
final `p`; returns the digit group. -/
def qualityNumTok (w : List Char) : Option (List Char) :=
  match w with
  | '-' :: rest =>
    let ds := rest.takeWhile Char.isDigit
    if ds ≠ [] ∧ rest.dropWhile Char.isDigit = ['p'] then some ds
    else none
  | _ => none

/-- State of the flag-walking loop of `parse_cobalt_args`: the three
mutable result fields together with the three was-explicitly-provided
flags. -/
structure ParseState where
  quality : List Char
  audio : List Char
  mode : List Char
  quality_provided : Bool
  audio_provided : Bool
  mode_provided : Bool
deriving DecidableEq, Repr

/-- Result dictionary of `parse_cobalt_args`. -/
structure CobaltArgs where
  url : List Char
  quality : List Char
  audio : List Char
  mode : List Char
  quality_provided : Bool
  audio_provided : Bool
  mode_provided : Bool
deriving DecidableEq, Repr

/-- The audio-format tokens recognized as standalone flags. -/
def audioFlagToks : List (List Char) :=
  ["-wav".data, "-ogg".data, "-opus".data, "-best".data]

/-- The mode tokens recognized as standalone flags. -/
def modeFlagToks : List (List Char) := ["-audio".data, "-mute".data]

end LocalCobalt

namespace LocalCobalt.UnifiedCobalt

open LocalCobalt

/-- The flag-walking `while` loop of `parse_cobalt_args` in
`src/unified_cobalt.py` (lines 238–274).  Each recognized flag consumes one
or two tokens; unrecognized tokens are skipped.  Note the branch order: a
standalone `-audio` token is consumed by the mode branch, so the legacy
`-audio X` branch below it is unreachable (it is transcribed regardless). -/
def argLoopAux : Nat → List (List Char) → ParseState → ParseState
  | 0, _, s => s
  | _ + 1, [], s => s
  | fuel + 1, w :: rest, s =>
    match qualityNumTok w with
    | some q => argLoopAux fuel rest { s with quality := q, quality_provided := true }
    | none =>
      if w = "-max".data then
        argLoopAux fuel rest { s with quality := "max".data, quality_provided := true }
      else if w ∈ audioFlagToks then
        argLoopAux fuel rest { s with audio := w.drop 1, audio_provided := true }
      else if w ∈ modeFlagToks then
        argLoopAux fuel rest { s with mode := w.drop 1, mode_provided := true }
      else if w = "-quality".data then
        match rest with
        | v :: rest2 =>
          argLoopAux fuel rest2 { s with quality := v, quality_provided := true }
        | [] => argLoopAux fuel rest s
      else if w = "-audio".data then
        match rest with
        | v :: rest2 =>
          argLoopAux fuel rest2 { s with audio := v, audio_provided := true }
        | [] => argLoopAux fuel rest s
      else if w = "-mode".data then
        match rest with
        | v :: rest2 =>
          argLoopAux fuel rest2 { s with mode := v, mode_provided := true }
        | [] => argLoopAux fuel rest s
      else argLoopAux fuel rest s

/-- The flag loop started with enough fuel. -/
def argLoop (ws : List (List Char)) (s : ParseState) : ParseState :=
  argLoopAux ws.length ws s

/-- `parse_cobalt_args` from `src/unified_cobalt.py` (lines 212–284):
normalize `-flag=value` (value class `\w`), split into words, take the
leading non-flag tokens as the url, and walk the remaining tokens. -/
def parse_cobalt_args (args_str : List Char) : CobaltArgs :=
  let norm := reSubFlagEq isWordChar args_str
  let words := pyWords norm
  let url_parts := words.takeWhile (fun w => !startsWithDash w)
  let url := pyJoinSpace url_parts
  let flags := words.dropWhile (fun w => !startsWithDash w)
  let s := argLoop flags
    { quality := "1080".data, audio := "mp3".data, mode := "auto".data,
      quality_provided := false, audio_provided := false,
      mode_provided := false }
  { url := pyStrip url, quality := s.quality, audio := s.audio,
    mode := s.mode, quality_provided := s.quality_provided,
    audio_provided := s.audio_provided, mode_provided := s.mode_provided }

end LocalCobalt.UnifiedCobalt

namespace LocalCobalt.Part000

open LocalCobalt

/-- The flag-walking `while` loop of `parse_cobalt_args` in
`src/unnamed/part_000` (lines 245–285).  Identical to the
`unified_cobalt.py` loop except in the standalone audio-format and mode
branches, where the source assigns `words[i][1:]` and then immediately
overwrites it with `words[i][2:]`, so two leading characters are
stripped. -/
def argLoopAux : Nat → List (List Char) → ParseState → ParseState
  | 0, _, s => s
  | _ + 1, [], s => s
  | fuel + 1, w :: rest, s =>
    match qualityNumTok w with
    | some q => argLoopAux fuel rest { s with quality := q, quality_provided := true }
    | none =>
      if w = "-max".data then
        argLoopAux fuel rest { s with quality := "max".data, quality_provided := true }
      else if w ∈ audioFlagToks then
        argLoopAux fuel rest { s with audio := w.drop 2, audio_provided := true }
      else if w ∈ modeFlagToks then
        argLoopAux fuel rest { s with mode := w.drop 2, mode_provided := true }
      else if w = "-quality".data then
        match rest with
        | v :: rest2 =>
          argLoopAux fuel rest2 { s with quality := v, quality_provided := true }
        | [] => argLoopAux fuel rest s
      else if w = "-audio".data then
        match rest with
        | v :: rest2 =>
          argLoopAux fuel rest2 { s with audio := v, audio_provided := true }
        | [] => argLoopAux fuel rest s
      else if w = "-mode".data then
        match rest with
        | v :: rest2 =>
          argLoopAux fuel rest2 { s with mode := v, mode_provided := true }
        | [] => argLoopAux fuel rest s
      else argLoopAux fuel rest s

/-- The flag loop started with enough fuel. -/
def argLoop (ws : List (List Char)) (s : ParseState) : ParseState :=
  argLoopAux ws.length ws s

/-- `parse_cobalt_args` from `src/unnamed/part_000` (lines 219–295): same
shape as the `unified_cobalt.py` variant but the `-flag=value` normalization
uses value class `\S` and the loop is the `part_000` one. -/
def parse_cobalt_args (args_str : List Char) : CobaltArgs :=
  let norm := reSubFlagEq isNonSpace args_str
  let words := pyWords norm
  let url_parts := words.takeWhile (fun w => !startsWithDash w)
  let url := pyJoinSpace url_parts
  let flags := words.dropWhile (fun w => !startsWithDash w)
  let s := argLoop flags
    { quality := "1080".data, audio := "mp3".data, mode := "auto".data,
      quality_provided := false, audio_provided := false,
      mode_provided := false }
  { url := pyStrip url, quality := s.quality, audio := s.audio,
    mode := s.mode, quality_provided := s.quality_provided,
    audio_provided := s.audio_provided, mode_provided := s.mode_provided }

end LocalCobalt.Part000

namespace LocalCobalt

/-! ## GIF transcoder (`convert_to_gif`)

The transcoder drives external processes (ffmpeg, gifsicle) and reads file
sizes.  The environment `GifEnv` supplies the outcome of each external step
and the measured sizes (in MB, as exact rationals standing for Python
floats); the model returns the trace of issued external commands together
with the function's result.  The returned `gif_path` is always the encoded
GIF in the output directory; `GifResult.sizeAtReturnedPath` records the byte
size (in MB) of the file actually located at that returned path when the
function returns, so that consistency of the reported sizes can be stated. -/

/-- Outcome of one gifsicle lossy-recompression invocation: the external
process may fail, may produce the output file with a measured size, or may
exit successfully without producing the expected output file. -/
inductive LossyOutcome where
  | procFail (msg : String)
  | produced (size : ℚ)
  | noOutput
deriving DecidableEq

/-- Environment of one `convert_to_gif` call: outcomes of the external
steps, the measured size of the freshly encoded GIF (read after the
`part_000` delay rewrite, which edits the file in place), and the configured
size threshold (MB).  `lossy lvl sz` is the outcome of running gifsicle at
lossy level `lvl` on an input file of size `sz`. -/
structure GifEnv where
  paletteExists : Bool
  encodeOutcome : Except String Unit
  gifExists : Bool
  delayOutcome : Except String Unit
  initialSize : ℚ
  threshold : ℚ
  lossy : Nat → ℚ → LossyOutcome

/-- One element of the ffmpeg `-lavfi` filter chain built by
`convert_to_gif`. -/
inductive VfFilter where
  | fpsFilter (fps : Nat)
  | scaleFilter (scale : String)
  | setptsFilter (invSpeed : ℚ)
  | paletteuseFilter
deriving DecidableEq

/-- External commands issued by `convert_to_gif`, with the data that the
claims are about: the filter chain of the encode, the frame delay of the
gifsicle delay rewrite, and the lossy level and input-file size of each
lossy recompression. -/
inductive GifEv where
  | paletteCmd (timeParams : Option (ℚ × ℚ)) (fps : Nat) (scale : String)
  | encodeCmd (timeParams : Option (ℚ × ℚ)) (vf : List VfFilter)
  | delayCmd (delay : ℤ)
  | lossyCmd (level : Nat) (inputSize : ℚ)
deriving DecidableEq

/-- The tuple returned by `convert_to_gif`:
`(gif_path, size, original_size, needs_upload)`, plus the size of the file
that is actually at `gif_path` at return time. -/
structure GifResult where
  finalSize : ℚ
  originalSize : Option ℚ
  uploadRequired : Bool
  sizeAtReturnedPath : ℚ
deriving DecidableEq, Repr

/-- `-ss start -t duration`: the time parameters passed to both ffmpeg
invocations, with `duration = end - start`. -/
def ffmpegTimeParams (tr : Option (ℚ × ℚ)) : Option (ℚ × ℚ) :=
  match tr with
  | none => none
  | some (s, e) => some (s, e - s)

/-- Error-message truncation used around `run_docker_cmd` failures:
messages longer than 1000 characters are cut to 997 plus `"..."`. -/
def truncMsg (e : String) : String :=
  if e.data.length > 1000 then String.mk (e.data.take 997 ++ "...".data) else e

/-- Python `round()` on an exact rational: round half to even. -/
def pyRound (q : ℚ) : ℤ :=
  let f := ⌊q⌋
  if q - f < 1/2 then f
  else if (1 : ℚ)/2 < q - f then f + 1
  else if f % 2 = 0 then f else f + 1

/-- Python `max` on two integers. -/
def pyMax (a b : ℤ) : ℤ := if a < b then b else a

/-- The lossy-recompression commands of a trace. -/
def lossyEvents (evs : List GifEv) : List GifEv :=
  evs.filter fun e => match e with | .lossyCmd _ _ => true | _ => false

/-- The frame-delay rewrite commands of a trace. -/
def delayEvents (evs : List GifEv) : List GifEv :=
  evs.filter fun e => match e with | .delayCmd _ => true | _ => false

end LocalCobalt

namespace LocalCobalt.UnifiedCobalt

open LocalCobalt

/-- `convert_to_gif` from `src/unified_cobalt.py` (lines 678–850).  Speed is
handled inside the encode filter chain (`setpts=1/speed*PTS` followed by
`fps`); there is no post-encode delay rewrite.  After the size gate, an
optimization request runs gifsicle at lossy level 30 on the encoded GIF; if
the result is still over the threshold, gifsicle runs again at level 60 on
the original encoded GIF (whose size is still `initialSize`); only when a
pass lands under the threshold is the optimized file moved onto
`gif_path`. -/
def convert_to_gif (fps : Nat) (scale : String) (timeRange : Option (ℚ × ℚ))
    (optimize : Bool) (speed : ℚ) (env : GifEnv) :
    List GifEv × Except String GifResult :=
  let tp := ffmpegTimeParams timeRange
  let ev0 : List GifEv := [.paletteCmd tp fps scale]
  if !env.paletteExists then (ev0, .error "Failed to generate palette image")
  else
    let vf : List VfFilter :=
      [.scaleFilter scale]
        ++ (if speed ≠ 1 then [.setptsFilter (1 / speed), .fpsFilter fps] else [])
        ++ [.paletteuseFilter]
    let ev1 := ev0 ++ [.encodeCmd tp vf]
    match env.encodeOutcome with
    | .error e => (ev1, .error ("FFmpeg error: " ++ truncMsg e))
    | .ok _ =>
      if !env.gifExists then (ev1, .error "GIF file not found")
      else
        let initial := env.initialSize
        let thr := env.threshold
        -- final-size check shared by all fall-through paths: `sz` is the
        -- size of the file now at `gif_path`
        let finalCheck : List GifEv → ℚ → Option ℚ →
            List GifEv × Except String GifResult := fun evs sz orig =>
          if sz > thr then (evs, .ok ⟨sz, orig, true, sz⟩)
          else (evs, .ok ⟨sz, orig, false, sz⟩)
        if initial > thr ∧ optimize = false then
          (ev1, .ok ⟨initial, none, true, initial⟩)
        else if optimize then
          let ev2 := ev1 ++ [.lossyCmd 30 initial]
          match env.lossy 30 initial with
          | .procFail e => (ev2, .error ("Giflossy error: " ++ truncMsg e))
          | .noOutput => (ev2, .error "GIF optimization failed")
          | .produced sz1 =>
            if sz1 > thr then
              let ev3 := ev2 ++ [.lossyCmd 60 initial]
              match env.lossy 60 initial with
              | .procFail e => (ev3, .error ("Giflossy error: " ++ truncMsg e))
              | .noOutput => (ev3, .error "Second optimization failed")
              | .produced sz2 =>
                if sz2 > thr then (ev3, .ok ⟨sz2, some initial, true, initial⟩)
                else finalCheck ev3 sz2 (some initial)
            else finalCheck ev2 sz1 (some initial)
        else finalCheck ev1 initial none

end LocalCobalt.UnifiedCobalt

namespace LocalCobalt.Part000

open LocalCobalt

/-- `convert_to_gif` from `src/unnamed/part_000` (lines 709–891).  The
encode filter chain is speed-independent (`fps`, `scale`, palette use);
speed ≠ 1.0 is instead applied after encoding as an in-place gifsicle
`--delay` rewrite with `new_delay = max(1, int(round((100/fps)/speed)))`.
The size gate and the escalating optimization are as in the
`unified_cobalt.py` variant (with lower-case message strings). -/
def convert_to_gif (fps : Nat) (scale : String) (timeRange : Option (ℚ × ℚ))
    (optimize : Bool) (speed : ℚ) (env : GifEnv) :
    List GifEv × Except String GifResult :=
  let tp := ffmpegTimeParams timeRange
  let ev0 : List GifEv := [.paletteCmd tp fps scale]
  if !env.paletteExists then (ev0, .error "Failed to generate palette image")
  else
    let vf : List VfFilter :=
      [.fpsFilter fps, .scaleFilter scale, .paletteuseFilter]
    let ev1 := ev0 ++ [.encodeCmd tp vf]
    match env.encodeOutcome with
    | .error e => (ev1, .error ("ffmpeg error: " ++ truncMsg e))
    | .ok _ =>
      if !env.gifExists then (ev1, .error "gif file not found")
      else
        let afterSpeed : List GifEv → List GifEv × Except String GifResult :=
          fun evA =>
            let initial := env.initialSize
            let thr := env.threshold
            let finalCheck : List GifEv → ℚ → Option ℚ →
                List GifEv × Except String GifResult := fun evs sz orig =>
              if sz > thr then (evs, .ok ⟨sz, orig, true, sz⟩)
              else (evs, .ok ⟨sz, orig, false, sz⟩)
            if initial > thr ∧ optimize = false then
              (evA, .ok ⟨initial, none, true, initial⟩)
            else if optimize then
              let ev2 := evA ++ [.lossyCmd 30 initial]
              match env.lossy 30 initial with
              | .procFail e => (ev2, .error ("Giflossy error: " ++ truncMsg e))
              | .noOutput => (ev2, .error "gif optimization failed")
              | .produced sz1 =>
                if sz1 > thr then
                  let ev3 := ev2 ++ [.lossyCmd 60 initial]
                  match env.lossy 60 initial with
                  | .procFail e => (ev3, .error ("Giflossy error: " ++ truncMsg e))
                  | .noOutput => (ev3, .error "second optimization failed")
                  | .produced sz2 =>
                    if sz2 > thr then (ev3, .ok ⟨sz2, some initial, true, initial⟩)
                    else finalCheck ev3 sz2 (some initial)
                else finalCheck ev2 sz1 (some initial)
            else finalCheck evA initial none
        if speed ≠ 1 then
          let newDelay : ℤ := pyMax 1 (pyRound ((100 : ℚ) / (fps : ℚ) / speed))
          let ev' := ev1 ++ [.delayCmd newDelay]
          match env.delayOutcome with
          | .error e => (ev', .error e)
          | .ok _ => afterSpeed ev'
        else afterSpeed ev1

end LocalCobalt.Part000

namespace LocalCobalt

/-! ## Fetcher and uploader: shared string helpers and environments

Python exceptions are modelled as a message plus a flag recording whether
the exception is an `aiohttp.ClientError` (the one exception class the
fetcher catches separately). -/

/-- A Python exception: its `str()` and whether it is an
`aiohttp.ClientError`. -/
structure PyErr where
  msg : String
  isClientError : Bool
deriving DecidableEq, Repr

/-- Does `hay` start with `pre`? -/
def listStarts : List Char → List Char → Bool
  | _, [] => true
  | [], _ :: _ => false
  | h :: hs, n :: ns => h = n && listStarts hs ns

/-- Does `hay` contain `sub` as a contiguous run? -/
def listContainsRun : List Char → List Char → Bool
  | [], sub => sub.isEmpty
  | h :: t, sub => listStarts (h :: t) sub || listContainsRun t sub

/-- Python `sub in hay` on strings. -/
def strContains (hay sub : String) : Bool := listContainsRun hay.data sub.data

/-- Python `s.startswith(pre)`. -/
def strStarts (s pre : String) : Bool := listStarts s.data pre.data

/-- Python `str.lower()` (ASCII). -/
def pyLower (s : String) : String := String.mk (s.data.map Char.toLower)

/-- `os.path.basename`: the part after the last `/`. -/
def pyBasename (s : String) : String :=
  String.mk ((s.data.reverse.takeWhile (· ≠ '/')).reverse)

/-- The extension component `os.path.splitext(s)[1]`: the suffix starting
at the last dot of the basename, unless only leading dots precede it. -/
def pyExt (s : String) : String :=
  let base := (s.data.reverse.takeWhile (· ≠ '/')).reverse
  let core := base.dropWhile (· = '.')
  if '.' ∈ core then String.mk ('.' :: (core.reverse.takeWhile (· ≠ '.')).reverse)
  else ""

/-- The characters `re.sub(r'[<>:"/\\|?*]', '_', ...)` replaces. -/
def invalidFileChars : List Char := ['<', '>', ':', '"', '/', '\\', '|', '?', '*']

/-- `re.sub(r'\s+', '_', ...)`: replace each whitespace run with one `_`.
The flag records whether the previous character was whitespace. -/
def collapseWsAux : Bool → List Char → List Char
  | _, [] => []
  | prevWs, c :: rest =>
    if c.isWhitespace then
      if prevWs then collapseWsAux true rest
      else '_' :: collapseWsAux true rest
    else c :: collapseWsAux false rest

/-- `sanitize_filename` (identical in both variants): drop directory
components and query/fragment suffixes, replace filesystem-unsafe
characters and whitespace runs with `_`. -/
def sanitize_filename (filename : String) : String :=
  let base := (filename.data.reverse.takeWhile (· ≠ '/')).reverse
  let base := base.takeWhile (· ≠ '?')
  let base := base.takeWhile (· ≠ '#')
  let base := base.map fun c => if c ∈ invalidFileChars then '_' else c
  String.mk (collapseWsAux false base)

/-- An HTTP response to a `download_file` GET: status and the streamed
body, given as the list of chunk sizes read from the connection (reading
stops at the first empty chunk). -/
structure DlResp where
  status : Nat
  chunks : List Nat
deriving DecidableEq, Repr

/-- Outcome of one GET attempt: a network failure
(`aiohttp.ClientError`) or an HTTP response. -/
inductive DlOutcome where
  | netError (msg : String)
  | response (r : DlResp)

/-- Environment of a `download_file` call: the outcome of a GET as a
function of whether the `Range` request header is still present. -/
structure DlEnv where
  resp : Bool → DlOutcome

/-- Total bytes streamed: chunk sizes are summed until the first empty
chunk (`if not chunk: break`). -/
def sumChunks (chunks : List Nat) : Nat := (chunks.takeWhile (· ≠ 0)).sum

/-- Concrete all-green transcoder environment (5 MB GIF, 50 MB threshold,
every external step succeeding), used by concrete evaluations. -/
def envAllOk : GifEnv :=
  { paletteExists := true, encodeOutcome := .ok (), gifExists := true,
    delayOutcome := .ok (), initialSize := 5, threshold := 50,
    lossy := fun _ _ => .noOutput }

/-- Environment in which the encoded GIF is 100 MB against a 50 MB
threshold, the first lossy pass yields 60 MB and the second 55 MB — both
still over the threshold. -/
def envTwoPassOver : GifEnv :=
  { paletteExists := true, encodeOutcome := .ok (), gifExists := true,
    delayOutcome := .ok (), initialSize := 100, threshold := 50,
    lossy := fun lvl _ => if lvl = 30 then .produced 60 else .produced 55 }

/-! ## Extraction-service fetch (`download_from_cobalt`) -/

/-- One entry of a picker response. -/
structure PickerItem where
  url : String
  itemType : String
deriving DecidableEq, Repr

/-- The parsed JSON body of an extraction-service response.  `Option`
fields model `dict.get` returning `None` for missing keys; `picker`
defaults to the empty list (`data.get("picker", [])`); `hasError` records
whether the `error` object is present and truthy. -/
structure CobaltData where
  status : Option String
  hasError : Bool
  errorCode : Option String
  errorMessage : Option String
  url : Option String
  filename : Option String
  picker : List PickerItem
  audio : Option String
  audioFilename : Option String
deriving Repr

/-- Outcome of the POST to the extraction service: a network failure
(`aiohttp.ClientError`), or an HTTP response whose body either parses as
JSON (`Except.ok`) or raises a decode error with the given text. -/
inductive PostOutcome where
  | clientError (msg : String)
  | response (status : Nat) (body : Except String CobaltData)

/-- Environment of a `download_from_cobalt` call: the POST outcome and the
behaviour of the nested `download_file` calls as a function of the
requested url and filename. -/
structure FetchEnv where
  post : PostOutcome
  download : String → String → Except PyErr String

/-- Successful fetch result: one file path (tunnel/redirect) or several
(picker). -/
inductive FetchOk where
  | single (path : String)
  | multi (paths : List String)
deriving DecidableEq, Repr

/-- The slice of the persisted configuration that `download_from_cobalt`
touches: the one-way first-successful-connection latch. -/
structure CobaltConfig where
  everConnected : Bool
deriving DecidableEq, Repr

/-- The setup-instructions failure raised on a connection error before the
service was ever reached. -/
def setupMsg : String :=
  "have you setup the script? follow setup steps inside the script or at https://github.com/p2xai/localcobalt-nighty"

/-- The transient-connectivity failure raised on a connection error after
the service was reached at least once. -/
def transientMsg (e : String) : String :=
  "could not connect to cobalt instance. error: " ++ e

/-- Filename given to picker item `idx` (1-based):
`cobalt_{idx}_{type}_{basename}` plus a type-derived extension when the
name has none. -/
def pickerFilename (idx : Nat) (it : PickerItem) : String :=
  let fn := "cobalt_" ++ toString idx ++ "_" ++ it.itemType ++ "_" ++ pyBasename it.url
  if pyExt fn = "" then
    if it.itemType = "photo" then fn ++ ".jpg"
    else if it.itemType = "video" then fn ++ ".mp4"
    else if it.itemType = "gif" then fn ++ ".gif"
    else fn
  else fn

/-- The `for idx, item in enumerate(picker_items, start=1)` loop: items
with an empty url are skipped with a log line; each other item is
downloaded and its path appended; a download failure is reclassified by
`classify` (the variant-specific 403/429 message mapping) and raised,
aborting the loop. -/
def pickerLoop (dl : String → String → Except PyErr String)
    (classify : PyErr → PyErr) :
    List PickerItem → Nat → List String → Except PyErr (List String)
  | [], _, acc => .ok acc
  | it :: rest, idx, acc =>
    if it.url = "" then pickerLoop dl classify rest (idx + 1) acc
    else
      match dl it.url (pickerFilename idx it) with
      | .ok p => pickerLoop dl classify rest (idx + 1) (acc ++ [p])
      | .error e => .error (classify e)

/-- Did this download succeed? -/
def dlOk : Except PyErr String → Bool
  | .ok _ => true
  | .error _ => false

/-- The paths the picker loop accumulates when no download fails: one per
item with a nonempty url (`dlRes` gives each url's download outcome). -/
def okPaths (dlRes : String → Except PyErr String) (items : List PickerItem) :
    List String :=
  items.filterMap fun it =>
    if it.url = "" then none
    else
      match dlRes it.url with
      | .ok p => some p
      | .error _ => none

/-- The picker items that are actually attempted (nonempty url). -/
def nonEmptyItems (items : List PickerItem) : List PickerItem :=
  items.filter fun it => it.url ≠ ""

/-- The contribution of the optional slideshow-audio leg: one path when an
audio url is present, nonempty and downloads successfully, none
otherwise. -/
def audioPaths (dlRes : String → Except PyErr String) (audio : Option String) :
    List String :=
  match audio with
  | none => []
  | some aurl =>
    if aurl = "" then []
    else
      match dlRes aurl with
      | .ok p => [p]
      | .error _ => []

/-- Python `str(x)` of an optional string (`str(None) = "None"`), as used
in the unknown-status message. -/
def optStr : Option String → String
  | none => "None"
  | some s => s

/-- The response-body dispatch shared verbatim by both variants'
`download_from_cobalt` (status-200 handling with its `error` / `tunnel` /
`redirect` / `picker` branches, and the non-200 branches).  `classify` is
the variant-specific reclassification of download errors (the two variants
differ only in the bullet characters of the Instagram message). -/
def cobaltDispatch (url : String) (classify : PyErr → PyErr)
    (env : FetchEnv) (status : Nat) (body : Except String CobaltData) :
    Except PyErr FetchOk :=
  match body with
  | .error jmsg => .error ⟨"Invalid response from Cobalt API: " ++ jmsg, false⟩
  | .ok d =>
    if status = 200 then
      if d.status = some "error" then
        let code := d.errorCode.getD "unknown"
        if code = "error.api.link.invalid" then
          .error ⟨"The URL you provided is invalid or not supported by Cobalt. Please check the URL and try again.", false⟩
        else if code = "error.api.link.unsupported" then
          .error ⟨"This website is not supported by Cobalt. Please try a different URL.", false⟩
        else if code = "error.api.link.private" then
          .error ⟨"This content is private or requires authentication. Cobalt cannot access it.", false⟩
        else
          .error ⟨"Cobalt API error: " ++ code ++ " - "
            ++ d.errorMessage.getD "No error message provided", false⟩
      else if d.status = some "tunnel" ∨ d.status = some "redirect" then
        match d.url with
        | none => .error ⟨"No download URL received from Cobalt API", false⟩
        | some du =>
          if du = "" then .error ⟨"No download URL received from Cobalt API", false⟩
          else
            match env.download du (d.filename.getD "download") with
            | .ok p => .ok (.single p)
            | .error e => .error (classify e)
      else if d.status = some "picker" then
        if d.picker = [] then
          .error ⟨"No media items found in picker response", false⟩
        else
          match pickerLoop env.download classify d.picker 1 [] with
          | .error e => .error e
          | .ok paths =>
            let paths2 :=
              match d.audio with
              | some aurl =>
                if aurl = "" then paths
                else
                  match env.download aurl
                      (d.audioFilename.getD ("audio_" ++ pyBasename aurl)) with
                  | .ok p => paths ++ [p]
                  | .error _ => paths
              | none => paths
            if paths2 = [] then
              .error ⟨"Failed to download any items from picker response", false⟩
            else .ok (.multi paths2)
      else .error ⟨"Unknown response status: " ++ optStr d.status, false⟩
    else if status = 400 then
      let em :=
        if d.hasError then
          d.errorCode.getD "unknown" ++ " - "
            ++ d.errorMessage.getD "No message, Ensure the URL is supported by Cobalt, an unsupported URL was provided"
        else "Bad Request"
      .error ⟨"Cobalt API error (400): " ++ em, false⟩
    else .error ⟨"Cobalt API error: HTTP " ++ toString status, false⟩

/-! ## Fallback upload (`upload_to_litterbox`) -/

/-- A parsed JSON body with every optional field absent (`{}`). -/
def emptyData : CobaltData :=
  { status := none, hasError := false, errorCode := none, errorMessage := none,
    url := none, filename := none, picker := [], audio := none,
    audioFilename := none }

/-- A fetch environment whose POST fails with a refused connection. -/
def refusedEnv : FetchEnv :=
  { post := .clientError "refused", download := fun _ _ => .ok "p" }

/-- A fetch environment whose POST is answered with an HTTP 500 and an
empty JSON object. -/
def http500Env : FetchEnv :=
  { post := .response 500 (.ok emptyData), download := fun _ _ => .ok "p" }

/-- A picker response with three photo items. -/
def picker3Data : CobaltData :=
  { emptyData with
    status := some "picker",
    picker := [⟨"http://h/u1.jpg", "photo"⟩, ⟨"http://h/u2.jpg", "photo"⟩,
               ⟨"http://h/u3.jpg", "photo"⟩] }

/-- The three-photo picker response plus a slideshow-audio url. -/
def picker3AudioData : CobaltData :=
  { picker3Data with audio := some "http://h/aud.mp3" }

/-- Download outcomes where exactly the second picker item fails. -/
def dlItem2Fails (u : String) : Except PyErr String :=
  if u = "http://h/u2.jpg" then
    .error ⟨"Failed to download file: HTTP 500", false⟩
  else .ok ("/dl/" ++ u)

/-- Download outcomes where every picker item succeeds and only the
slideshow audio fails. -/
def dlAudioFails (u : String) : Except PyErr String :=
  if u = "http://h/aud.mp3" then .error ⟨"Downloaded file is 0 bytes", false⟩
  else .ok ("/dl/" ++ u)

/-- Fetch environment: three-item picker where item 2's download fails. -/
def picker3ItemFailEnv : FetchEnv :=
  { post := .response 200 (.ok picker3Data), download := fun u _ => dlItem2Fails u }

/-- Fetch environment: three-item picker, all items succeed, the
slideshow-audio download fails. -/
def picker3AudioFailEnv : FetchEnv :=
  { post := .response 200 (.ok picker3AudioData),
    download := fun u _ => dlAudioFails u }

/-- The HTTP response of the litterbox POST. -/
structure UpResp where
  status : Nat
  body : String
deriving DecidableEq, Repr

/-- One multipart upload request: the `reqtype` and `time` form fields and
the uploaded filename. -/
structure UploadReq where
  reqtype : String
  time : String
  filename : String
deriving DecidableEq, Repr

end LocalCobalt

namespace LocalCobalt.UnifiedCobalt

open LocalCobalt

/-- `download_file` from `src/unified_cobalt.py` (lines 371–444).  The
trace records, per GET issued, whether the `Range` header was present.
The headers always start with `Range: bytes=0-`; an HTTP 403 on the first
attempt pops it and retries once.  200/206 stream the body; an empty body
raises (the has-the-file-been-saved re-check cannot fire, since the file
was just written with at least one byte).  A network failure is wrapped
into a fresh `Exception("Network error: ...")`. -/
def download_file (dir filename : String) (env : DlEnv) :
    List Bool × Except PyErr String :=
  let file_path := dir ++ "/" ++ sanitize_filename filename
  match env.resp true with
  | .netError m => ([true], .error ⟨"Network error: " ++ m, false⟩)
  | .response r =>
    if r.status = 200 ∨ r.status = 206 then
      if sumChunks r.chunks = 0 then
        ([true], .error ⟨"Downloaded file is 0 bytes", false⟩)
      else ([true], .ok file_path)
    else if r.status = 403 then
      match env.resp false with
      | .netError m => ([true, false], .error ⟨"Network error: " ++ m, false⟩)
      | .response r2 =>
        if r2.status = 200 ∨ r2.status = 206 then
          if sumChunks r2.chunks = 0 then
            ([true, false], .error ⟨"Downloaded file is 0 bytes", false⟩)
          else ([true, false], .ok file_path)
        else
          ([true, false],
            .error ⟨"Failed to download file: HTTP " ++ toString r2.status, false⟩)
    else
      ([true], .error ⟨"Failed to download file: HTTP " ++ toString r.status, false⟩)

/-- The unified-variant reclassification of a download error inside
`download_from_cobalt`: 403s map to an Instagram-specific or generic
access-denied message, 429s to a rate-limit message, everything else is
re-raised unchanged. -/
def classifyDlError (url : String) (e : PyErr) : PyErr :=
  if strContains e.msg "HTTP 403" then
    if strContains (pyLower url) "instagram.com" then
      ⟨"Instagram is blocking the download. Try:\n‚Ä¢ Making sure the content is public\n‚Ä¢ Waiting a few minutes\n‚Ä¢ Using a different Cobalt instance", false⟩
    else
      ⟨"Access denied (403) when downloading. The server is blocking the request. Try again later or use a different Cobalt instance.", false⟩
  else if strContains e.msg "HTTP 429" then
    ⟨"Too many requests. Please wait a few minutes before trying again.", false⟩
  else e

/-- `download_from_cobalt` from `src/unified_cobalt.py` (lines 468–675).
`urlValid` stands for the source's `is_valid_url(url)` pre-flight check
(its regex internals are not needed by any claim).  This variant keeps no
connection latch: a `ClientError` — from the POST or propagated out of a
nested download — becomes `Exception("Connection error: ...")`. -/
def download_from_cobalt (url quality audioFmt mode : String)
    (urlValid : Bool) (cfg : CobaltConfig) (env : FetchEnv) :
    CobaltConfig × Except PyErr FetchOk :=
  if !urlValid then
    (cfg, .error ⟨"The URL you provided is invalid. Please check the URL format and try again.", false⟩)
  else
    match env.post with
    | .clientError m => (cfg, .error ⟨"Connection error: " ++ m, false⟩)
    | .response status body =>
      let r := cobaltDispatch url (classifyDlError url) env status body
      (cfg,
        match r with
        | .error e =>
          if e.isClientError then .error ⟨"Connection error: " ++ e.msg, false⟩
          else .error e
        | .ok v => .ok v)

/-- `upload_to_litterbox` from `src/unified_cobalt.py` (lines 853–886):
one multipart POST with `reqtype=fileupload` and the configured expiry; a
200 whose body starts with `https://` is the hosted URL, any other body or
status raises. -/
def upload_to_litterbox (expiry filePath : String) (resp : UpResp) :
    List UploadReq × Except PyErr String :=
  ([{ reqtype := "fileupload", time := expiry, filename := pyBasename filePath }],
    if resp.status = 200 then
      if strStarts resp.body "https://" then .ok resp.body
      else .error ⟨"Invalid response from litterbox: " ++ resp.body, false⟩
    else .error ⟨"Failed to upload file: HTTP " ++ toString resp.status, false⟩)

end LocalCobalt.UnifiedCobalt

namespace LocalCobalt.Part000

open LocalCobalt

/-- `download_file` from `src/unnamed/part_000` (lines 399–468): as the
unified variant, except that its `except aiohttp.ClientError` handler
re-raises the original `ClientError` (bare `raise`) instead of wrapping
it. -/
def download_file (dir filename : String) (env : DlEnv) :
    List Bool × Except PyErr String :=
  let file_path := dir ++ "/" ++ sanitize_filename filename
  match env.resp true with
  | .netError m => ([true], .error ⟨m, true⟩)
  | .response r =>
    if r.status = 200 ∨ r.status = 206 then
      if sumChunks r.chunks = 0 then
        ([true], .error ⟨"Downloaded file is 0 bytes", false⟩)
      else ([true], .ok file_path)
    else if r.status = 403 then
      match env.resp false with
      | .netError m => ([true, false], .error ⟨m, true⟩)
      | .response r2 =>
        if r2.status = 200 ∨ r2.status = 206 then
          if sumChunks r2.chunks = 0 then
            ([true, false], .error ⟨"Downloaded file is 0 bytes", false⟩)
          else ([true, false], .ok file_path)
        else
          ([true, false],
            .error ⟨"Failed to download file: HTTP " ++ toString r2.status, false⟩)
    else
      ([true], .error ⟨"Failed to download file: HTTP " ++ toString r.status, false⟩)

/-- The part_000 reclassification of a download error inside
`download_from_cobalt` (proper `•` bullets in the Instagram message). -/
def classifyDlError (url : String) (e : PyErr) : PyErr :=
  if strContains e.msg "HTTP 403" then
    if strContains (pyLower url) "instagram.com" then
      ⟨"Instagram is blocking the download. Try:\n• Making sure the content is public\n• Waiting a few minutes\n• Using a different Cobalt instance", false⟩
    else
      ⟨"Access denied (403) when downloading. The server is blocking the request. Try again later or use a different Cobalt instance.", false⟩
  else if strContains e.msg "HTTP 429" then
    ⟨"Too many requests. Please wait a few minutes before trying again.", false⟩
  else e

/-- `download_from_cobalt` from `src/unnamed/part_000` (lines 492–706).
`urlValid` stands for the source's `is_valid_url(url)` pre-flight check.
As soon as any HTTP response arrives (line 531, before the body is even
parsed), the first-successful-connection latch is set in the persisted
configuration.  A `ClientError` — the POST failing, or one propagated out
of a nested download — is answered according to the latch: the
setup-instructions message if the service was never reached, the
transient-connectivity message otherwise. -/
def download_from_cobalt (url quality audioFmt mode : String)
    (urlValid : Bool) (cfg : CobaltConfig) (env : FetchEnv) :
    CobaltConfig × Except PyErr FetchOk :=
  if !urlValid then
    (cfg, .error ⟨"The URL you provided is invalid. Please check the URL format and try again.", false⟩)
  else
    match env.post with
    | .clientError m =>
      if !cfg.everConnected then (cfg, .error ⟨setupMsg, false⟩)
      else (cfg, .error ⟨transientMsg m, false⟩)
    | .response status body =>
      let cfg' : CobaltConfig := { everConnected := true }
      let r := cobaltDispatch url (classifyDlError url) env status body
      (cfg',
        match r with
        | .error e =>
          if e.isClientError then
            if !cfg'.everConnected then .error ⟨setupMsg, false⟩
            else .error ⟨transientMsg e.msg, false⟩
          else .error e
        | .ok v => .ok v)

/-- `upload_to_litterbox` from `src/unnamed/part_000` (lines 894–927):
as the unified variant, with lower-case failure messages. -/
def upload_to_litterbox (expiry filePath : String) (resp : UpResp) :
    List UploadReq × Except PyErr String :=
  ([{ reqtype := "fileupload", time := expiry, filename := pyBasename filePath }],
    if resp.status = 200 then
      if strStarts resp.body "https://" then .ok resp.body
      else .error ⟨"invalid response from litterbox: " ++ resp.body, false⟩
    else .error ⟨"failed to upload file: http " ++ toString resp.status, false⟩)

end LocalCobalt.Part000

namespace LocalCobalt

/-- 52 MB encoded GIF against a 50 MB threshold, all external steps
succeeding. -/
def envGate52 : GifEnv :=
  { paletteExists := true, encodeOutcome := .ok (), gifExists := true,
    delayOutcome := .ok (), initialSize := 52, threshold := 50,
    lossy := fun _ _ => .noOutput }

/-- 100 MB encoded GIF, 50 MB threshold, first lossy pass 60 MB (over),
second lossy pass 40 MB (under). -/
def envSecondPassOk : GifEnv :=
  { paletteExists := true, encodeOutcome := .ok (), gifExists := true,
    delayOutcome := .ok (), initialSize := 100, threshold := 50,
    lossy := fun lvl _ => if lvl = 30 then .produced 60 else .produced 40 }

end LocalCobalt

section GifTheorems

open LocalCobalt

/-- Evaluation of the frame-delay formula at `fps = 15`, `speed = 2`. -/
theorem delay_fps15_speed2 : pyMax 1 (pyRound ((100 : ℚ) / ((15 : ℕ) : ℚ) / 2)) = 3 := by
  have hq : (100 : ℚ) / ((15 : ℕ) : ℚ) / 2 = 10 / 3 := by norm_num
  have hf : ⌊(10 : ℚ) / 3⌋ = 3 := by norm_num [Int.floor_eq_iff]
  simp only [pyRound, hq, hf]
  have hr : (10 : ℚ) / 3 - ((3 : ℤ) : ℚ) < 1 / 2 := by push_cast; norm_num
  rw [if_pos hr]
  rfl

/-- C2: when the freshly encoded GIF exceeds the configured threshold and
optimization was not requested, both variants of `convert_to_gif` return
at once with the upload-required flag set, reporting the unoptimized size,
and never invoke the lossy optimizer. -/
theorem gif_size_gate (fps : Nat) (scale : String) (tr : Option (ℚ × ℚ))
    (speed : ℚ) (env : GifEnv)
    (hp : env.paletteExists = true) (he : env.encodeOutcome = .ok ())
    (hg : env.gifExists = true) (hd : env.delayOutcome = .ok ())
    (hbig : env.threshold < env.initialSize) :
    ((UnifiedCobalt.convert_to_gif fps scale tr false speed env).2
        = .ok ⟨env.initialSize, none, true, env.initialSize⟩
      ∧ lossyEvents (UnifiedCobalt.convert_to_gif fps scale tr false speed env).1 = [])
    ∧ ((Part000.convert_to_gif fps scale tr false speed env).2
        = .ok ⟨env.initialSize, none, true, env.initialSize⟩
      ∧ lossyEvents (Part000.convert_to_gif fps scale tr false speed env).1 = []) := by
  refine ⟨⟨?_, ?_⟩, ?_, ?_⟩ <;>
    simp [UnifiedCobalt.convert_to_gif, Part000.convert_to_gif, lossyEvents,
      hp, he, hg, hd, hbig] <;>
    (try (split_ifs <;> simp))

/-- C2 witness: a 52 MB artifact with a 50 MB threshold and
`optimize = False` is routed to fallback upload with no optimizer run. -/
theorem gif_size_gate_witness :
    ((UnifiedCobalt.convert_to_gif 15 "480:-1" none false 1 envGate52).2
        = .ok ⟨52, none, true, 52⟩
      ∧ lossyEvents (UnifiedCobalt.convert_to_gif 15 "480:-1" none false 1 envGate52).1 = [])
    ∧ (Part000.convert_to_gif 15 "480:-1" none false 1 envGate52).2
        = .ok ⟨52, none, true, 52⟩ := by
  have h := gif_size_gate 15 "480:-1" none 1 envGate52 rfl rfl rfl rfl
    (by norm_num [envGate52])
  exact ⟨⟨h.1.1, h.1.2⟩, h.2.1⟩

/-- C1: with optimization requested, whenever the first lossy pass (level
30) leaves the artifact over the threshold, both variants run exactly one
more lossy pass, at the strictly higher level 60, whose input is the
original pre-optimization GIF (its input size equals the pre-optimization
size, not the first pass's output size); if the second result is still
over the threshold the result is flagged for fallback upload, otherwise
the optimized file replaces the working artifact. -/
theorem gif_optimize_escalation (fps : Nat) (scale : String)
    (tr : Option (ℚ × ℚ)) (speed : ℚ) (env : GifEnv)
    (hp : env.paletteExists = true) (he : env.encodeOutcome = .ok ())
    (hg : env.gifExists = true) (hd : env.delayOutcome = .ok ())
    (sz1 : ℚ) (h1 : env.lossy 30 env.initialSize = .produced sz1)
    (hover : env.threshold < sz1) :
    (lossyEvents (UnifiedCobalt.convert_to_gif fps scale tr true speed env).1
        = [.lossyCmd 30 env.initialSize, .lossyCmd 60 env.initialSize]
      ∧ lossyEvents (Part000.convert_to_gif fps scale tr true speed env).1
        = [.lossyCmd 30 env.initialSize, .lossyCmd 60 env.initialSize])
    ∧ (30 : ℕ) < 60
    ∧ (∀ sz2 : ℚ, env.lossy 60 env.initialSize = .produced sz2 →
        (env.threshold < sz2 →
          (UnifiedCobalt.convert_to_gif fps scale tr true speed env).2
              = .ok ⟨sz2, some env.initialSize, true, env.initialSize⟩
            ∧ (Part000.convert_to_gif fps scale tr true speed env).2
              = .ok ⟨sz2, some env.initialSize, true, env.initialSize⟩)
        ∧ (sz2 ≤ env.threshold →
          (UnifiedCobalt.convert_to_gif fps scale tr true speed env).2
              = .ok ⟨sz2, some env.initialSize, false, sz2⟩
            ∧ (Part000.convert_to_gif fps scale tr true speed env).2
              = .ok ⟨sz2, some env.initialSize, false, sz2⟩)) := by
  refine ⟨⟨?_, ?_⟩, by norm_num, ?_⟩
  · rcases h60 : env.lossy 60 env.initialSize with msg | sz2 | _ <;>
      simp [UnifiedCobalt.convert_to_gif, lossyEvents, hp, he, hg, h1, h60, hover] <;>
      (try (split_ifs <;> simp))
  · rcases h60 : env.lossy 60 env.initialSize with msg | sz2 | _ <;>
      simp [Part000.convert_to_gif, lossyEvents, hp, he, hg, hd, h1, h60, hover] <;>
      (try (split_ifs <;> simp))
  · intro sz2 h60
    constructor
    · intro hc
      constructor <;>
        simp [UnifiedCobalt.convert_to_gif, Part000.convert_to_gif,
          hp, he, hg, hd, h1, h60, hover, hc] <;>
        (try (split_ifs <;> simp))
    · intro hc
      have hc' : ¬ env.threshold < sz2 := not_lt.mpr hc
      constructor <;>
        simp [UnifiedCobalt.convert_to_gif, Part000.convert_to_gif,
          hp, he, hg, hd, h1, h60, hover, hc'] <;>
        (try (split_ifs <;> simp))

/-- C1 witness: 100 MB original, 50 MB threshold, first pass 60 MB (over),
second pass 40 MB: both passes ran on the 100 MB original, and the 40 MB
optimized file replaced the working artifact. -/
theorem gif_optimize_escalation_witness :
    (lossyEvents (UnifiedCobalt.convert_to_gif 15 "480:-1" none true 1 envSecondPassOk).1
        = [.lossyCmd 30 100, .lossyCmd 60 100]
      ∧ lossyEvents (Part000.convert_to_gif 15 "480:-1" none true 1 envSecondPassOk).1
        = [.lossyCmd 30 100, .lossyCmd 60 100])
    ∧ (UnifiedCobalt.convert_to_gif 15 "480:-1" none true 1 envSecondPassOk).2
        = .ok ⟨40, some 100, false, 40⟩ := by
  have h := gif_optimize_escalation 15 "480:-1" none 1 envSecondPassOk
    rfl rfl rfl rfl 60 rfl (by norm_num [envSecondPassOk])
  exact ⟨h.1, ((h.2.2 40 rfl).2 (by norm_num [envSecondPassOk])).1⟩

/-- C3 (failing evaluation): when both lossy passes stay over the
threshold, both variants return the path of the untouched pre-optimization
GIF (100 MB at the returned path) while reporting the discarded second
pass's 55 MB as the final size — the reported final size does not describe
the returned file. -/
theorem gif_second_pass_size_mismatch :
    ((UnifiedCobalt.convert_to_gif 15 "480:-1" none true 1 envTwoPassOver).2
        = .ok { finalSize := 55, originalSize := some 100, uploadRequired := true,
                sizeAtReturnedPath := 100 }
      ∧ (Part000.convert_to_gif 15 "480:-1" none true 1 envTwoPassOver).2
        = .ok { finalSize := 55, originalSize := some 100, uploadRequired := true,
                sizeAtReturnedPath := 100 })
    ∧ (55 : ℚ) ≠ 100 := by
  refine ⟨⟨?_, ?_⟩, by norm_num⟩ <;>
    (simp [UnifiedCobalt.convert_to_gif, Part000.convert_to_gif,
      envTwoPassOver, ffmpegTimeParams]; norm_num)

/-- C7 (counterexample): at `fps = 15`, `speed = 2`, the
`unified_cobalt.py` variant issues no frame-delay rewrite command at all —
its full command trace is palette generation followed by an encode whose
filter chain contains `setpts=0.5*PTS`, so the speed change is a re-encode
there, not the claimed post-encode delay rewrite. -/
theorem gif_speed_setpts_not_delay :
    ((UnifiedCobalt.convert_to_gif 15 "480:-1" none false 2 envAllOk).1
        = [.paletteCmd none 15 "480:-1",
           .encodeCmd none [.scaleFilter "480:-1", .setptsFilter (1/2),
             .fpsFilter 15, .paletteuseFilter]])
    ∧ (∀ d : ℤ,
        GifEv.delayCmd d ∉ (UnifiedCobalt.convert_to_gif 15 "480:-1" none false 2 envAllOk).1) := by
  have h : (UnifiedCobalt.convert_to_gif 15 "480:-1" none false 2 envAllOk).1
      = [.paletteCmd none 15 "480:-1",
         .encodeCmd none [.scaleFilter "480:-1", .setptsFilter (1/2),
           .fpsFilter 15, .paletteuseFilter]] := by
    simp [UnifiedCobalt.convert_to_gif, envAllOk, ffmpegTimeParams]
    norm_num
  refine ⟨h, ?_⟩
  intro d hd
  rw [h] at hd
  simp at hd

/-- C7 (amended): in the `part_000` variant, speed ≠ 1.0 is applied as a
post-encode frame-delay rewrite with
`new_delay = max(1, round((100/fps)/speed))` (at fps = 15, speed = 2.0 the
delay is 3); the `unified_cobalt.py` variant instead never issues a delay
rewrite and, for speed ≠ 1.0, re-encodes with a `setpts=(1/speed)*PTS`
filter followed by an `fps` filter in its encode command. -/
theorem gif_speed_delay_semantics :
    (∀ (fps : Nat) (scale : String) (tr : Option (ℚ × ℚ)) (opt : Bool)
        (speed : ℚ) (env : GifEnv),
        env.paletteExists = true → env.encodeOutcome = .ok () →
        env.gifExists = true → speed ≠ 1 →
        GifEv.delayCmd (pyMax 1 (pyRound ((100 : ℚ) / (fps : ℚ) / speed)))
          ∈ (Part000.convert_to_gif fps scale tr opt speed env).1)
    ∧ pyMax 1 (pyRound ((100 : ℚ) / ((15 : ℕ) : ℚ) / 2)) = 3
    ∧ (∀ (fps : Nat) (scale : String) (tr : Option (ℚ × ℚ)) (opt : Bool)
        (speed : ℚ) (env : GifEnv) (d : ℤ),
        GifEv.delayCmd d ∉ (UnifiedCobalt.convert_to_gif fps scale tr opt speed env).1)
    ∧ (∀ (fps : Nat) (scale : String) (tr : Option (ℚ × ℚ)) (opt : Bool)
        (speed : ℚ) (env : GifEnv),
        env.paletteExists = true → speed ≠ 1 →
        GifEv.encodeCmd (ffmpegTimeParams tr)
            [.scaleFilter scale, .setptsFilter (1 / speed), .fpsFilter fps,
              .paletteuseFilter]
          ∈ (UnifiedCobalt.convert_to_gif fps scale tr opt speed env).1) := by
  refine ⟨?_, delay_fps15_speed2, ?_, ?_⟩
  · intro fps scale tr opt speed env hp he hg hs
    rcases hdo : env.delayOutcome with e | _ <;>
      rcases h30 : env.lossy 30 env.initialSize with m | sz1 | _ <;>
        rcases h60 : env.lossy 60 env.initialSize with m2 | sz2 | _ <;>
          simp [Part000.convert_to_gif, hp, he, hg, hs, hdo, h30, h60] <;>
          (try (split_ifs <;> simp))
  · intro fps scale tr opt speed env d
    cases hpe : env.paletteExists <;>
      rcases hee : env.encodeOutcome with e | _ <;>
        cases hge : env.gifExists <;>
          rcases h30 : env.lossy 30 env.initialSize with m | sz1 | _ <;>
            rcases h60 : env.lossy 60 env.initialSize with m2 | sz2 | _ <;>
              simp [UnifiedCobalt.convert_to_gif, hpe, hee, hge, h30, h60] <;>
              (try (split_ifs <;> simp))
  · intro fps scale tr opt speed env hp hs
    rcases hee : env.encodeOutcome with e | _ <;>
      cases hge : env.gifExists <;>
        rcases h30 : env.lossy 30 env.initialSize with m | sz1 | _ <;>
          rcases h60 : env.lossy 60 env.initialSize with m2 | sz2 | _ <;>
            simp [UnifiedCobalt.convert_to_gif, hp, hee, hge, hs, h30, h60] <;>
            (try (split_ifs <;> simp))

/-- C7 amended-claim witness at fps = 15, speed = 2: the `part_000` trace
contains the delay-3 rewrite and the unified trace contains no delay
rewrite but a `setpts=0.5*PTS` encode. -/
theorem gif_speed_delay_semantics_witness :
    GifEv.delayCmd 3 ∈ (Part000.convert_to_gif 15 "480:-1" none false 2 envAllOk).1
    ∧ GifEv.delayCmd 3 ∉ (UnifiedCobalt.convert_to_gif 15 "480:-1" none false 2 envAllOk).1
    ∧ GifEv.encodeCmd none
        [.scaleFilter "480:-1", .setptsFilter (1 / 2), .fpsFilter 15, .paletteuseFilter]
        ∈ (UnifiedCobalt.convert_to_gif 15 "480:-1" none false 2 envAllOk).1 := by
  have h := gif_speed_delay_semantics
  refine ⟨?_, h.2.2.1 15 "480:-1" none false 2 envAllOk 3, ?_⟩
  · have h1 := h.1 15 "480:-1" none false 2 envAllOk rfl rfl rfl (by norm_num)
    rwa [h.2.1] at h1
  · have h4 := h.2.2.2 15 "480:-1" none false 2 envAllOk rfl (by norm_num)
    simpa [ffmpegTimeParams] using h4

end GifTheorems

section FetchTheorems

open LocalCobalt

/-- C8: both variants of `upload_to_litterbox` return a hosted URL exactly
when the upload response is an HTTP 200 whose body starts with
`https://`; any other status, and any 200 body without that prefix, is
raised as an upload failure; the returned URL is the response body, and
exactly one upload request is issued per call. -/
theorem litterbox_upload_semantics (expiry fp : String) (resp : UpResp) :
    (((UnifiedCobalt.upload_to_litterbox expiry fp resp).2 = .ok resp.body)
        ↔ (resp.status = 200 ∧ strStarts resp.body "https://" = true))
    ∧ (∀ u, (UnifiedCobalt.upload_to_litterbox expiry fp resp).2 = .ok u → u = resp.body)
    ∧ (UnifiedCobalt.upload_to_litterbox expiry fp resp).1.length = 1
    ∧ (((Part000.upload_to_litterbox expiry fp resp).2 = .ok resp.body)
        ↔ (resp.status = 200 ∧ strStarts resp.body "https://" = true))
    ∧ (∀ u, (Part000.upload_to_litterbox expiry fp resp).2 = .ok u → u = resp.body)
    ∧ (Part000.upload_to_litterbox expiry fp resp).1.length = 1 := by
  by_cases h200 : resp.status = 200 <;>
    cases hss : strStarts resp.body "https://" <;>
      simp [UnifiedCobalt.upload_to_litterbox, Part000.upload_to_litterbox, h200, hss]

/-- C8 witness: a 200 response whose body is an `https://` URL is accepted
and returned verbatim; a 200 body not starting with `https://` is an
upload failure. -/
theorem litterbox_upload_semantics_witness :
    (UnifiedCobalt.upload_to_litterbox "24h" "/tmp/out.gif"
        ⟨200, "https://files.catbox.moe/x.gif"⟩).2
      = .ok "https://files.catbox.moe/x.gif"
    ∧ ¬ ((Part000.upload_to_litterbox "24h" "/tmp/out.gif"
        ⟨200, "error: too large"⟩).2
      = .ok "error: too large") := by
  constructor
  · exact (litterbox_upload_semantics "24h" "/tmp/out.gif"
      ⟨200, "https://files.catbox.moe/x.gif"⟩).1.mpr ⟨rfl, by decide⟩
  · intro h
    have h2 := (litterbox_upload_semantics "24h" "/tmp/out.gif"
      ⟨200, "error: too large"⟩).2.2.2.1.mp h
    exact absurd h2.2 (by decide)

/-- C6: for every `download_file` call (both variants): a first response of
200/206 with a nonempty streamed body succeeds with the saved path after a
single request; a completed zero-byte body is a failure; an HTTP 403 on the
first attempt (where the `Range` header is always present) triggers exactly
one retry with the `Range` header removed, after which 200/206 with data
succeeds and anything else fails; any other first status fails with no
retry; and no call ever issues more than the one documented retry. -/
theorem download_file_retry_policy (dir fn : String) (env : DlEnv) :
    (∀ r, env.resp true = .response r → (r.status = 200 ∨ r.status = 206) →
        sumChunks r.chunks ≠ 0 →
        UnifiedCobalt.download_file dir fn env
            = ([true], .ok (dir ++ "/" ++ sanitize_filename fn))
          ∧ Part000.download_file dir fn env
            = ([true], .ok (dir ++ "/" ++ sanitize_filename fn)))
    ∧ (∀ r, env.resp true = .response r → (r.status = 200 ∨ r.status = 206) →
        sumChunks r.chunks = 0 →
        (UnifiedCobalt.download_file dir fn env).2
            = .error ⟨"Downloaded file is 0 bytes", false⟩
          ∧ (Part000.download_file dir fn env).2
            = .error ⟨"Downloaded file is 0 bytes", false⟩)
    ∧ (∀ r, env.resp true = .response r → r.status = 403 →
        ((UnifiedCobalt.download_file dir fn env).1 = [true, false]
          ∧ (Part000.download_file dir fn env).1 = [true, false])
        ∧ (∀ r2, env.resp false = .response r2 →
            ((r2.status = 200 ∨ r2.status = 206) → sumChunks r2.chunks ≠ 0 →
              (UnifiedCobalt.download_file dir fn env).2
                  = .ok (dir ++ "/" ++ sanitize_filename fn)
                ∧ (Part000.download_file dir fn env).2
                  = .ok (dir ++ "/" ++ sanitize_filename fn))
            ∧ (¬(r2.status = 200 ∨ r2.status = 206) →
              (UnifiedCobalt.download_file dir fn env).2
                  = .error ⟨"Failed to download file: HTTP " ++ toString r2.status, false⟩
                ∧ (Part000.download_file dir fn env).2
                  = .error ⟨"Failed to download file: HTTP " ++ toString r2.status, false⟩)))
    ∧ (∀ r, env.resp true = .response r →
        ¬(r.status = 200 ∨ r.status = 206) → r.status ≠ 403 →
        UnifiedCobalt.download_file dir fn env
            = ([true], .error ⟨"Failed to download file: HTTP " ++ toString r.status, false⟩)
          ∧ Part000.download_file dir fn env
            = ([true], .error ⟨"Failed to download file: HTTP " ++ toString r.status, false⟩))
    ∧ (((UnifiedCobalt.download_file dir fn env).1 = [true]
          ∨ (UnifiedCobalt.download_file dir fn env).1 = [true, false])
        ∧ ((Part000.download_file dir fn env).1 = [true]
          ∨ (Part000.download_file dir fn env).1 = [true, false])) := by
  refine ⟨?_, ?_, ?_, ?_, ?_⟩
  · intro r h0 hs hc
    constructor <;>
      simp [UnifiedCobalt.download_file, Part000.download_file, h0, hs, hc]
  · intro r h0 hs hc
    constructor <;>
      simp [UnifiedCobalt.download_file, Part000.download_file, h0, hs, hc]
  · intro r h0 hs
    have hs' : ¬(r.status = 200 ∨ r.status = 206) := by omega
    refine ⟨?_, ?_⟩
    · rcases hf : env.resp false with m | r2 <;>
        (constructor <;>
          simp [UnifiedCobalt.download_file, Part000.download_file, h0, hs, hs', hf] <;>
          (try (split_ifs <;> simp)))
    · intro r2 hf
      constructor
      · intro h2s h2c
        constructor <;>
          simp [UnifiedCobalt.download_file, Part000.download_file, h0, hs, hs', hf,
            h2s, h2c]
      · intro h2s
        constructor <;>
          simp [UnifiedCobalt.download_file, Part000.download_file, h0, hs, hs', hf, h2s]
  · intro r h0 hs h403
    constructor <;>
      simp [UnifiedCobalt.download_file, Part000.download_file, h0, hs, h403]
  · constructor <;>
      (rcases ht : env.resp true with m | r <;>
        rcases hf : env.resp false with m2 | r2 <;>
        simp [UnifiedCobalt.download_file, Part000.download_file, ht, hf] <;>
        (try (split_ifs <;> simp)))

/-- C6 witness: a 403 with the Range header present, followed by a 200
with data once the Range header is removed, succeeds after exactly two
requests; a 404 fails after a single request. -/
theorem download_file_retry_policy_witness :
    (UnifiedCobalt.download_file "downloads" "a b.gif"
        ⟨fun hasRange => if hasRange then .response ⟨403, []⟩
          else .response ⟨200, [8192, 512]⟩⟩)
      = ([true, false], .ok "downloads/a_b.gif")
    ∧ (Part000.download_file "downloads" "clip.mp4"
        ⟨fun _ => .response ⟨404, []⟩⟩).1 = [true] := by
  constructor
  · have h := download_file_retry_policy "downloads" "a b.gif"
      ⟨fun hasRange => if hasRange then .response ⟨403, []⟩
        else .response ⟨200, [8192, 512]⟩⟩
    have h3 := h.2.2.1 ⟨403, []⟩ rfl rfl
    have hok := (h3.2 ⟨200, [8192, 512]⟩ rfl).1 (Or.inl rfl) (by decide)
    have := h3.1.1
    exact Prod.ext this (by simpa [sanitize_filename] using hok.1)
  · have h := download_file_retry_policy "downloads" "clip.mp4"
      ⟨fun _ => .response ⟨404, []⟩⟩
    exact ((h.2.2.2.1 ⟨404, []⟩ rfl (by decide) (by decide)).2).symm ▸ rfl

/-- The setup-instructions message differs from every
transient-connectivity message (their first characters differ). -/
theorem setupMsg_ne_transientMsg (e : String) : setupMsg ≠ transientMsg e := by
  intro h
  have hl : setupMsg.data.head? = some 'h' := rfl
  have hr : (transientMsg e).data.head? = some 'c' := by
    rw [transientMsg, String.data_append]; rfl
  rw [h, hr] at hl
  simp at hl

/-- C5: in the `part_000` variant, a network failure while contacting the
extraction service raises the setup-instructions error iff the
first-successful-connection latch is false, and the transient-connectivity
error when the latch is true; a pure connection failure leaves the latch
untouched, any HTTP response (whatever its status or body) sets it, the
latch is never cleared by the function, and after one contact the same
network failure yields the transient-connectivity message. -/
theorem setup_latch_behavior (url q a m : String) (cfg : CobaltConfig)
    (env : FetchEnv) :
    (∀ msg, env.post = .clientError msg →
        (((Part000.download_from_cobalt url q a m true cfg env).2
            = .error ⟨setupMsg, false⟩) ↔ cfg.everConnected = false)
        ∧ (cfg.everConnected = true →
          (Part000.download_from_cobalt url q a m true cfg env).2
            = .error ⟨transientMsg msg, false⟩)
        ∧ (Part000.download_from_cobalt url q a m true cfg env).1 = cfg)
    ∧ (∀ (status : Nat) (body : Except String CobaltData),
        env.post = .response status body →
        ((Part000.download_from_cobalt url q a m true cfg env).1).everConnected = true)
    ∧ (cfg.everConnected = true →
        ((Part000.download_from_cobalt url q a m true cfg env).1).everConnected = true)
    ∧ (∀ (env2 : FetchEnv) (status : Nat) (body : Except String CobaltData)
        (msg : String),
        env.post = .response status body → env2.post = .clientError msg →
        (Part000.download_from_cobalt url q a m true
            ((Part000.download_from_cobalt url q a m true cfg env).1) env2).2
          = .error ⟨transientMsg msg, false⟩) := by
  refine ⟨?_, ?_, ?_, ?_⟩
  · intro msg hpost
    cases hc : cfg.everConnected <;>
      simp [Part000.download_from_cobalt, hpost, hc, setupMsg_ne_transientMsg msg,
        (setupMsg_ne_transientMsg msg).symm]
  · intro status body hpost
    simp [Part000.download_from_cobalt, hpost]
  · intro hc
    rcases hpost : env.post with msg | ⟨status, body⟩ <;>
      simp [Part000.download_from_cobalt, hpost, hc]
  · intro env2 status body msg h1 h2
    have hlatch : (Part000.download_from_cobalt url q a m true cfg env).1
        = { everConnected := true } := by
      simp [Part000.download_from_cobalt, h1]
    rw [hlatch]
    simp [Part000.download_from_cobalt, h2]

/-- C5 witness: with the latch clear, a refused connection yields the
setup-instructions message; one service contact (here an HTTP 500) flips
the latch, after which the same refused connection yields the
transient-connectivity message. -/
theorem setup_latch_behavior_witness :
    (Part000.download_from_cobalt "http://localhost/x" "1080" "mp3" "auto" true
        ⟨false⟩ refusedEnv).2 = .error ⟨setupMsg, false⟩
    ∧ (Part000.download_from_cobalt "http://localhost/x" "1080" "mp3" "auto" true
        ((Part000.download_from_cobalt "http://localhost/x" "1080" "mp3" "auto" true
          ⟨false⟩ http500Env).1) refusedEnv).2
      = .error ⟨transientMsg "refused", false⟩ := by
  constructor
  · exact ((setup_latch_behavior "http://localhost/x" "1080" "mp3" "auto" ⟨false⟩
      refusedEnv).1 "refused" rfl).1.mpr rfl
  · exact (setup_latch_behavior "http://localhost/x" "1080" "mp3" "auto" ⟨false⟩
      http500Env).2.2.2 refusedEnv 500 (.ok emptyData) "refused" rfl rfl

/-- Skipped item (empty url) contributes no path. -/
theorem okPaths_cons_empty {dlRes} {it : PickerItem} {rest} (h : it.url = "") :
    okPaths dlRes (it :: rest) = okPaths dlRes rest := by
  simp [okPaths, h]

/-- Successfully downloaded item contributes its path. -/
theorem okPaths_cons_ok {dlRes} {it : PickerItem} {rest} {p}
    (h : ¬ it.url = "") (hp : dlRes it.url = .ok p) :
    okPaths dlRes (it :: rest) = p :: okPaths dlRes rest := by
  simp [okPaths, h, hp]

/-- When every attempted item downloads successfully, the picker loop
returns the accumulated paths followed by one path per attempted item. -/
theorem pickerLoop_all_ok (dl : String → String → Except PyErr String)
    (classify : PyErr → PyErr) (dlRes : String → Except PyErr String)
    (hdl : ∀ u fn, dl u fn = dlRes u) :
    ∀ (items : List PickerItem) (idx : Nat) (acc : List String),
      (∀ it ∈ items, it.url ≠ "" → dlOk (dlRes it.url) = true) →
      pickerLoop dl classify items idx acc = .ok (acc ++ okPaths dlRes items) := by
  intro items
  induction items with
  | nil => intro idx acc _; simp [pickerLoop, okPaths]
  | cons it rest ih =>
    intro idx acc hall
    by_cases hu : it.url = ""
    · rw [okPaths_cons_empty hu]
      simp only [pickerLoop, hu, if_pos]
      exact ih (idx + 1) acc fun j hj => hall j (List.mem_cons_of_mem _ hj)
    · have hok := hall it (List.mem_cons_self _ _) hu
      cases hm : dlRes it.url with
      | error e => rw [hm] at hok; simp [dlOk] at hok
      | ok p =>
        rw [okPaths_cons_ok hu hm]
        simp only [pickerLoop, hu, if_neg, hdl, hm]
        rw [ih (idx + 1) (acc ++ [p]) fun j hj => hall j (List.mem_cons_of_mem _ hj)]
        simp

/-- The first failing attempted item aborts the picker loop with the
reclassified error. -/
theorem pickerLoop_abort (dl : String → String → Except PyErr String)
    (classify : PyErr → PyErr) (dlRes : String → Except PyErr String)
    (hdl : ∀ u fn, dl u fn = dlRes u) :
    ∀ (pre : List PickerItem) (it : PickerItem) (post : List PickerItem)
      (idx : Nat) (acc : List String) (e : PyErr),
      (∀ j ∈ pre, j.url ≠ "" → dlOk (dlRes j.url) = true) →
      it.url ≠ "" → dlRes it.url = .error e →
      pickerLoop dl classify (pre ++ it :: post) idx acc = .error (classify e) := by
  intro pre
  induction pre with
  | nil =>
    intro it post idx acc e _ hu he
    simp [pickerLoop, hu, hdl, he]
  | cons j pre ih =>
    intro it post idx acc e hall hu he
    by_cases hju : j.url = ""
    · simp only [List.cons_append, pickerLoop, hju, if_pos]
      exact ih it post (idx + 1) acc e
        (fun x hx => hall x (List.mem_cons_of_mem _ hx)) hu he
    · have hok := hall j (List.mem_cons_self _ _) hju
      cases hm : dlRes j.url with
      | error e2 => rw [hm] at hok; simp [dlOk] at hok
      | ok p =>
        simp only [List.cons_append, pickerLoop, hju, if_neg, hdl, hm]
        exact ih it post (idx + 1) (acc ++ [p]) e
          (fun x hx => hall x (List.mem_cons_of_mem _ hx)) hu he

/-- With all attempted downloads succeeding there is exactly one path per
attempted item. -/
theorem okPaths_length (dlRes : String → Except PyErr String) :
    ∀ items : List PickerItem,
      (∀ it ∈ items, it.url ≠ "" → dlOk (dlRes it.url) = true) →
      (okPaths dlRes items).length = (nonEmptyItems items).length := by
  intro items
  induction items with
  | nil => intro _; simp [okPaths, nonEmptyItems]
  | cons it rest ih =>
    intro hall
    have ih' := ih fun j hj => hall j (List.mem_cons_of_mem _ hj)
    by_cases hu : it.url = ""
    · rw [okPaths_cons_empty hu]
      simp [nonEmptyItems, hu, ih']
    · have hok := hall it (List.mem_cons_self _ _) hu
      cases hm : dlRes it.url with
      | error e => rw [hm] at hok; simp [dlOk] at hok
      | ok p =>
        rw [okPaths_cons_ok hu hm]
        simp [nonEmptyItems, hu, ih']

/-- If no item has a nonempty url, no path is collected. -/
theorem okPaths_nil_of_nonEmpty_nil (dlRes : String → Except PyErr String) :
    ∀ items : List PickerItem,
      nonEmptyItems items = [] → okPaths dlRes items = [] := by
  intro items
  induction items with
  | nil => intro _; simp [okPaths]
  | cons it rest ih =>
    intro h
    by_cases hu : it.url = ""
    · rw [okPaths_cons_empty hu]
      refine ih ?_
      simpa [nonEmptyItems, hu] using h
    · simp [nonEmptyItems, hu] at h

/-- C4 (counterexample): a three-item picker where exactly item 2's
download fails does not yield overall success with the two remaining
artifacts — both variants abort the whole fetch with the item's error. -/
theorem picker_item_failure_aborts :
    (UnifiedCobalt.download_from_cobalt "http://localhost/x" "1080" "mp3" "auto" true
        ⟨true⟩ picker3ItemFailEnv).2
      = .error ⟨"Failed to download file: HTTP 500", false⟩
    ∧ (Part000.download_from_cobalt "http://localhost/x" "1080" "mp3" "auto" true
        ⟨true⟩ picker3ItemFailEnv).2
      = .error ⟨"Failed to download file: HTTP 500", false⟩
    ∧ ¬ ((UnifiedCobalt.download_from_cobalt "http://localhost/x" "1080" "mp3" "auto" true
        ⟨true⟩ picker3ItemFailEnv).2
      = .ok (.multi ["/dl/http://h/u1.jpg", "/dl/http://h/u3.jpg"])) := by
  refine ⟨by decide, by decide, by decide⟩

/-- C4 (amended): on a nonempty picker response, both variants skip items
with an empty url; when every attempted item downloads successfully the
fetch succeeds with one artifact per attempted item plus the slideshow
audio when present and successful (an audio failure is tolerated and never
fails the fetch); the fetch fails with the no-items error exactly when
zero artifacts were collected; but the first failing attempted item aborts
the whole fetch with an error instead of being skipped. -/
theorem picker_fetch_semantics (url q a m : String) (cfg : CobaltConfig)
    (env : FetchEnv) (d : CobaltData) (dlRes : String → Except PyErr String)
    (hdl : ∀ u fn, env.download u fn = dlRes u)
    (hpost : env.post = .response 200 (.ok d))
    (hstat : d.status = some "picker") (hne : d.picker ≠ []) :
    ((∀ it ∈ d.picker, it.url ≠ "" → dlOk (dlRes it.url) = true) →
      nonEmptyItems d.picker ≠ [] →
      (UnifiedCobalt.download_from_cobalt url q a m true cfg env).2
          = .ok (.multi (okPaths dlRes d.picker ++ audioPaths dlRes d.audio))
        ∧ (Part000.download_from_cobalt url q a m true cfg env).2
          = .ok (.multi (okPaths dlRes d.picker ++ audioPaths dlRes d.audio))
        ∧ (okPaths dlRes d.picker ++ audioPaths dlRes d.audio).length
            = (nonEmptyItems d.picker).length + (audioPaths dlRes d.audio).length)
    ∧ (∀ (pre : List PickerItem) (it : PickerItem) (post : List PickerItem)
        (e : PyErr),
        d.picker = pre ++ it :: post →
        (∀ j ∈ pre, j.url ≠ "" → dlOk (dlRes j.url) = true) →
        it.url ≠ "" → dlRes it.url = .error e →
        (∃ e₁, (UnifiedCobalt.download_from_cobalt url q a m true cfg env).2
            = .error e₁)
          ∧ ∃ e₂, (Part000.download_from_cobalt url q a m true cfg env).2
            = .error e₂)
    ∧ (nonEmptyItems d.picker = [] → audioPaths dlRes d.audio = [] →
        (UnifiedCobalt.download_from_cobalt url q a m true cfg env).2
            = .error ⟨"Failed to download any items from picker response", false⟩
          ∧ (Part000.download_from_cobalt url q a m true cfg env).2
            = .error ⟨"Failed to download any items from picker response", false⟩) := by
  have hdisp : ∀ classify : PyErr → PyErr,
      (∀ it ∈ d.picker, it.url ≠ "" → dlOk (dlRes it.url) = true) →
      cobaltDispatch url classify env 200 (.ok d)
        = (if (okPaths dlRes d.picker ++ audioPaths dlRes d.audio) = [] then
            .error ⟨"Failed to download any items from picker response", false⟩
          else .ok (.multi (okPaths dlRes d.picker ++ audioPaths dlRes d.audio))) := by
    intro classify hall
    rw [cobaltDispatch]
    simp only [hstat, hne]
    rw [pickerLoop_all_ok env.download classify dlRes hdl d.picker 1 [] hall]
    rcases haud : d.audio with _ | aurl
    · simp [audioPaths, haud]
    · by_cases ha : aurl = ""
      · simp [audioPaths, haud, ha]
      · cases hres : dlRes aurl with
        | ok p => simp [audioPaths, haud, ha, hdl, hres]
        | error e => simp [audioPaths, haud, ha, hdl, hres]
  refine ⟨?_, ?_, ?_⟩
  · intro hall hnz
    have hlen := okPaths_length dlRes d.picker hall
    have hne2 : okPaths dlRes d.picker ++ audioPaths dlRes d.audio ≠ [] := by
      intro hcat
      rcases List.append_eq_nil.mp hcat with ⟨h1, _⟩
      apply hnz
      have hl0 : (nonEmptyItems d.picker).length = 0 := by rw [← hlen, h1]; rfl
      exact List.eq_nil_of_length_eq_zero hl0
    refine ⟨?_, ?_, by simp [hlen]⟩ <;>
      simp [UnifiedCobalt.download_from_cobalt, Part000.download_from_cobalt,
        hpost, hdisp _ hall, hne2]
  · intro pre it post e hsplit hpre hu he
    constructor
    · have hd2 : cobaltDispatch url (UnifiedCobalt.classifyDlError url) env 200 (.ok d)
          = .error (UnifiedCobalt.classifyDlError url e) := by
        rw [cobaltDispatch]
        simp only [hstat, hne]
        rw [hsplit,
          pickerLoop_abort env.download _ dlRes hdl pre it post 1 [] e hpre hu he]
        simp
      by_cases hcl : (UnifiedCobalt.classifyDlError url e).isClientError = true
      · refine ⟨⟨"Connection error: " ++ (UnifiedCobalt.classifyDlError url e).msg,
          false⟩, ?_⟩
        simp [UnifiedCobalt.download_from_cobalt, hpost, hd2, hcl]
      · refine ⟨UnifiedCobalt.classifyDlError url e, ?_⟩
        simp [UnifiedCobalt.download_from_cobalt, hpost, hd2, hcl]
    · have hd2 : cobaltDispatch url (Part000.classifyDlError url) env 200 (.ok d)
          = .error (Part000.classifyDlError url e) := by
        rw [cobaltDispatch]
        simp only [hstat, hne]
        rw [hsplit,
          pickerLoop_abort env.download _ dlRes hdl pre it post 1 [] e hpre hu he]
        simp
      by_cases hcl : (Part000.classifyDlError url e).isClientError = true
      · refine ⟨⟨transientMsg (Part000.classifyDlError url e).msg, false⟩, ?_⟩
        simp [Part000.download_from_cobalt, hpost, hd2, hcl]
      · refine ⟨Part000.classifyDlError url e, ?_⟩
        simp [Part000.download_from_cobalt, hpost, hd2, hcl]
  · intro hz haz
    have hall : ∀ it ∈ d.picker, it.url ≠ "" → dlOk (dlRes it.url) = true := by
      intro it hit hu
      exfalso
      have : it ∈ nonEmptyItems d.picker := by
        simp [nonEmptyItems, hu, hit]
      rw [hz] at this
      simp at this
    have hop := okPaths_nil_of_nonEmpty_nil dlRes d.picker hz
    constructor <;>
      simp [UnifiedCobalt.download_from_cobalt, Part000.download_from_cobalt,
        hpost, hdisp _ hall, hop, haz]

/-- C4 amended-claim witness: a three-item picker with all item downloads
succeeding and the slideshow-audio download failing yields overall success
with exactly the three item artifacts, while the same picker with item 2
failing aborts with an error. -/
theorem picker_fetch_semantics_witness :
    (UnifiedCobalt.download_from_cobalt "http://localhost/x" "1080" "mp3" "auto" true
        ⟨true⟩ picker3AudioFailEnv).2
      = .ok (.multi ["/dl/http://h/u1.jpg", "/dl/http://h/u2.jpg", "/dl/http://h/u3.jpg"])
    ∧ (∃ e₂, (Part000.download_from_cobalt "http://localhost/x" "1080" "mp3" "auto" true
        ⟨true⟩ picker3ItemFailEnv).2 = .error e₂) := by
  constructor
  · have h := (picker_fetch_semantics "http://localhost/x" "1080" "mp3" "auto"
      ⟨true⟩ picker3AudioFailEnv picker3AudioData dlAudioFails
      (fun u fn => rfl) rfl rfl (by decide)).1 (by decide) (by decide)
    have heval : okPaths dlAudioFails picker3AudioData.picker
        ++ audioPaths dlAudioFails picker3AudioData.audio
        = ["/dl/http://h/u1.jpg", "/dl/http://h/u2.jpg", "/dl/http://h/u3.jpg"] := by
      decide
    rw [heval] at h
    exact h.1
  · exact ((picker_fetch_semantics "http://localhost/x" "1080" "mp3" "auto"
      ⟨true⟩ picker3ItemFailEnv picker3Data dlItem2Fails
      (fun u fn => rfl) rfl rfl (by decide)).2.1
      [⟨"http://h/u1.jpg", "photo"⟩] ⟨"http://h/u2.jpg", "photo"⟩
      [⟨"http://h/u3.jpg", "photo"⟩] ⟨"Failed to download file: HTTP 500", false⟩
      (by decide) (by decide) (by decide) (by decide)).2

end FetchTheorems

section ParserTheorems

open LocalCobalt

/-- Membership survives `dropWhile`. -/
theorem mem_of_mem_dropWhile {α : Type} {p : α → Bool} {a : α} :
    ∀ {l : List α}, a ∈ l.dropWhile p → a ∈ l := by
  intro l
  induction l with
  | nil => intro h; simp at h
  | cons x xs ih =>
    intro h
    rw [List.dropWhile_cons] at h
    by_cases hp : p x = true
    · simp only [hp, if_pos] at h
      exact List.mem_cons_of_mem _ (ih h)
    · simp only [hp] at h
      simpa using h

/-- The `-flag=value` normalization is the identity on strings that
contain no `=` (the pattern requires a literal `=`). -/
theorem reSubFlagEqAux_no_eq (vclass : Char → Bool) :
    ∀ (fuel : Nat) (cs : List Char), '=' ∉ cs →
      reSubFlagEqAux vclass fuel cs = cs := by
  intro fuel
  induction fuel with
  | zero => intro cs _; rfl
  | succ n ih =>
    intro cs hcs
    cases cs with
    | nil => rfl
    | cons c rest =>
      have hrest : '=' ∉ rest := fun h => hcs (List.mem_cons_of_mem _ h)
      have hno : ¬ (rest.dropWhile isWordChar).head? = some '=' := by
        intro h
        apply hrest
        apply mem_of_mem_dropWhile (p := isWordChar)
        cases hd : rest.dropWhile isWordChar with
        | nil => rw [hd] at h; simp at h
        | cons x xs =>
          rw [hd] at h
          simp only [List.head?, Option.some.injEq] at h
          simp [h]
      rw [reSubFlagEqAux]
      have hcond : ¬ (c = '-' ∧ rest.takeWhile isWordChar ≠ []
          ∧ (rest.dropWhile isWordChar).head? = some '='
          ∧ ((rest.dropWhile isWordChar).tail.takeWhile vclass) ≠ []) := by
        intro h
        exact hno h.2.2.1
      simp only [hcond, if_false]
      rw [ih rest hrest]

/-- The normalization is the identity on `=`-free inputs. -/
theorem reSubFlagEq_no_eq (vclass : Char → Bool) (cs : List Char)
    (h : '=' ∉ cs) : reSubFlagEq vclass cs = cs :=
  reSubFlagEqAux_no_eq vclass cs.length cs h

/-- On the same word list and from states agreeing on quality and the
three provided flags, the two variants' flag loops produce states agreeing
on quality and the three provided flags (they can differ only in the
`audio` and `mode` strings). -/
theorem argLoopAux_agree :
    ∀ (n : Nat) (ws : List (List Char)) (s1 s2 : ParseState),
      s1.quality = s2.quality → s1.quality_provided = s2.quality_provided →
      s1.audio_provided = s2.audio_provided → s1.mode_provided = s2.mode_provided →
      (UnifiedCobalt.argLoopAux n ws s1).quality = (Part000.argLoopAux n ws s2).quality
      ∧ (UnifiedCobalt.argLoopAux n ws s1).quality_provided
          = (Part000.argLoopAux n ws s2).quality_provided
      ∧ (UnifiedCobalt.argLoopAux n ws s1).audio_provided
          = (Part000.argLoopAux n ws s2).audio_provided
      ∧ (UnifiedCobalt.argLoopAux n ws s1).mode_provided
          = (Part000.argLoopAux n ws s2).mode_provided := by
  intro n
  induction n with
  | zero => intro ws s1 s2 h1 h2 h3 h4; exact ⟨h1, h2, h3, h4⟩
  | succ n ih =>
    intro ws s1 s2 h1 h2 h3 h4
    cases ws with
    | nil => exact ⟨h1, h2, h3, h4⟩
    | cons w rest =>
      simp only [UnifiedCobalt.argLoopAux, Part000.argLoopAux]
      rcases hq : qualityNumTok w with _ | q <;> simp only []
      case' some => exact ih rest _ _ rfl rfl h3 h4
      case none =>
        by_cases hmax : w = "-max".data
        · simp only [hmax, if_pos]
          exact ih rest _ _ rfl rfl h3 h4
        · simp only [hmax, if_neg, if_false]
          by_cases haud : w ∈ audioFlagToks
          · simp only [haud, if_pos]
            exact ih rest _ _ h1 h2 rfl h4
          · simp only [haud, if_false]
            by_cases hmod : w ∈ modeFlagToks
            · simp only [hmod, if_pos]
              exact ih rest _ _ h1 h2 h3 rfl
            · simp only [hmod, if_false]
              by_cases hqual : w = "-quality".data
              · simp only [hqual, if_pos]
                cases rest with
                | nil => exact ih [] _ _ h1 h2 h3 h4
                | cons v rest2 => exact ih rest2 _ _ rfl rfl h3 h4
              · simp only [hqual, if_false]
                by_cases haud2 : w = "-audio".data
                · simp only [haud2, if_pos]
                  cases rest with
                  | nil => exact ih [] _ _ h1 h2 h3 h4
                  | cons v rest2 => exact ih rest2 _ _ h1 h2 rfl h4
                · simp only [haud2, if_false]
                  by_cases hmod2 : w = "-mode".data
                  · simp only [hmod2, if_pos]
                    cases rest with
                    | nil => exact ih [] _ _ h1 h2 h3 h4
                    | cons v rest2 => exact ih rest2 _ _ h1 h2 h3 rfl
                  · simp only [hmod2, if_false]
                    exact ih rest _ _ h1 h2 h3 h4

/-- On a word list containing none of the six standalone audio/mode
tokens, the two variants' flag loops coincide exactly. -/
theorem argLoopAux_eq_of_no_special :
    ∀ (n : Nat) (ws : List (List Char)) (s : ParseState),
      (∀ w ∈ ws, w ∉ audioFlagToks ∧ w ∉ modeFlagToks) →
      UnifiedCobalt.argLoopAux n ws s = Part000.argLoopAux n ws s := by
  intro n
  induction n with
  | zero => intro ws s _; rfl
  | succ n ih =>
    intro ws s h
    cases ws with
    | nil => rfl
    | cons w rest =>
      have hw := h w (List.mem_cons_self _ _)
      have hrest := fun x hx => h x (List.mem_cons_of_mem _ hx)
      simp only [UnifiedCobalt.argLoopAux, Part000.argLoopAux]
      rcases hq : qualityNumTok w with _ | q <;> simp only []
      case' some => exact ih rest _ hrest
      case none =>
        by_cases hmax : w = "-max".data
        · simp only [hmax, if_pos]
          exact ih rest _ hrest
        · simp only [hmax, if_false]
          simp only [hw.1, hw.2, if_false]
          by_cases hqual : w = "-quality".data
          · simp only [hqual, if_pos]
            cases rest with
            | nil => exact ih [] _ (by intro x hx; cases hx)
            | cons v rest2 => exact ih rest2 _ (fun x hx => hrest x (List.mem_cons_of_mem _ hx))
          · simp only [hqual, if_false]
            by_cases haud2 : w = "-audio".data
            · simp only [haud2, if_pos]
              cases rest with
              | nil => exact ih [] _ (by intro x hx; cases hx)
              | cons v rest2 => exact ih rest2 _ (fun x hx => hrest x (List.mem_cons_of_mem _ hx))
            · simp only [haud2, if_false]
              by_cases hmod2 : w = "-mode".data
              · simp only [hmod2, if_pos]
                cases rest with
                | nil => exact ih [] _ (by intro x hx; cases hx)
                | cons v rest2 => exact ih rest2 _ (fun x hx => hrest x (List.mem_cons_of_mem _ hx))
              · simp only [hmod2, if_false]
                exact ih rest _ hrest

/-- C9 (failing evaluation): on `"http://x -wav"` the `part_000`
`parse_cobalt_args` strips two leading characters from the standalone
audio token (its `audio = words[i][1:]` is immediately overwritten by
`audio = words[i][2:]`), returning `"av"`, which is outside the
mp3/wav/ogg/opus/best enum — while the `unified_cobalt.py` variant returns
`"wav"` as the claim describes; the mode tokens are mangled the same way
(`-mute` yields `"ute"`). -/
theorem part000_audio_flag_two_chars :
    (Part000.parse_cobalt_args "http://x -wav".data).audio = "av".data
    ∧ "av".data ∉ ["mp3".data, "wav".data, "ogg".data, "opus".data, "best".data]
    ∧ (UnifiedCobalt.parse_cobalt_args "http://x -wav".data).audio = "wav".data
    ∧ (Part000.parse_cobalt_args "http://y -mute".data).mode = "ute".data
    ∧ (UnifiedCobalt.parse_cobalt_args "http://y -mute".data).mode = "mute".data := by
  refine ⟨by decide, by decide, by decide, by decide, by decide⟩

/-- C10 (counterexample): the two variants' base argument parsers are not
extensionally equal — on `"http://x -wav"` they return different result
dictionaries (`audio = "wav"` vs `audio = "av"`). -/
theorem parse_variants_differ :
    UnifiedCobalt.parse_cobalt_args "http://x -wav".data
      ≠ Part000.parse_cobalt_args "http://x -wav".data := by
  decide

/-- C10 (amended): for every argument string containing no `=`, the two
variants' `parse_cobalt_args` agree on the url, the quality, and all three
was-explicitly-provided flags; if moreover none of the six standalone
audio and mode tokens (`-wav`, `-ogg`, `-opus`, `-best`, `-audio`,
`-mute`) occurs among the words, the full result dictionaries are equal.  (They genuinely diverge on
those tokens, where `part_000` strips two leading characters instead of
one, and the differing `-flag=value` normalization regexes can further
diverge on strings containing `=`.) -/
theorem parse_variants_agree (args : List Char) (hne : '=' ∉ args) :
    ((UnifiedCobalt.parse_cobalt_args args).url
        = (Part000.parse_cobalt_args args).url
      ∧ (UnifiedCobalt.parse_cobalt_args args).quality
        = (Part000.parse_cobalt_args args).quality
      ∧ (UnifiedCobalt.parse_cobalt_args args).quality_provided
        = (Part000.parse_cobalt_args args).quality_provided
      ∧ (UnifiedCobalt.parse_cobalt_args args).audio_provided
        = (Part000.parse_cobalt_args args).audio_provided
      ∧ (UnifiedCobalt.parse_cobalt_args args).mode_provided
        = (Part000.parse_cobalt_args args).mode_provided)
    ∧ ((∀ w ∈ pyWords args, w ∉ audioFlagToks ∧ w ∉ modeFlagToks) →
        UnifiedCobalt.parse_cobalt_args args = Part000.parse_cobalt_args args) := by
  have e1 : reSubFlagEq isWordChar args = args := reSubFlagEq_no_eq _ _ hne
  have e2 : reSubFlagEq isNonSpace args = args := reSubFlagEq_no_eq _ _ hne
  constructor
  · have h := argLoopAux_agree
      ((pyWords args).dropWhile (fun w => !startsWithDash w)).length
      ((pyWords args).dropWhile (fun w => !startsWithDash w))
      { quality := "1080".data, audio := "mp3".data, mode := "auto".data,
        quality_provided := false, audio_provided := false, mode_provided := false }
      { quality := "1080".data, audio := "mp3".data, mode := "auto".data,
        quality_provided := false, audio_provided := false, mode_provided := false }
      rfl rfl rfl rfl
    simp only [UnifiedCobalt.parse_cobalt_args, Part000.parse_cobalt_args, e1, e2,
      UnifiedCobalt.argLoop, Part000.argLoop]
    exact ⟨trivial, h.1, h.2.1, h.2.2.1, h.2.2.2⟩
  · intro hspec
    have hloop := argLoopAux_eq_of_no_special
      ((pyWords args).dropWhile (fun w => !startsWithDash w)).length
      ((pyWords args).dropWhile (fun w => !startsWithDash w))
      { quality := "1080".data, audio := "mp3".data, mode := "auto".data,
        quality_provided := false, audio_provided := false, mode_provided := false }
      (fun w hw => hspec w (mem_of_mem_dropWhile hw))
    simp only [UnifiedCobalt.parse_cobalt_args, Part000.parse_cobalt_args, e1, e2,
      UnifiedCobalt.argLoop, Part000.argLoop]
    rw [hloop]

/-- C10 amended-claim witness: on `"http://a -720p -optimize"` (no `=`,
none of the six standalone tokens) the two parsers return identical
dictionaries. -/
theorem parse_variants_agree_witness :
    UnifiedCobalt.parse_cobalt_args "http://a -720p -optimize".data
      = Part000.parse_cobalt_args "http://a -720p -optimize".data := by
  exact (parse_variants_agree "http://a -720p -optimize".data (by decide)).2 (by decide)

end ParserTheorems


